import Mathlib

/-!
Verification of the PyGA operator engine (pyga/encoding.py,
pyga/operators/crossover.py, pyga/operators/mutation.py,
pyga/operators/selection.py, pyga/genetic_algorithm.py) against its
specification.  Python lists and 1-D numpy arrays are modelled as Lean
lists, numpy floats as rationals, and every random draw is passed in
explicitly (derandomisation): a Bernoulli roll becomes a Bool argument,
np.random.randint becomes a Nat argument together with a Finset giving
the support the call can actually produce.
-/

/-- Chromosome data model of pyga/encoding.py: a gene sequence `value`
together with the parallel list `ivalue` of (original index, gene) pairs.
Genes are modelled as integers (the binary variant stores 0/1, and numpy
elementwise addition can produce other integers). -/
structure Encoding where
  value : List Int
  ivalue : List (Nat × Int)
deriving DecidableEq, Repr

/-- BinaryEncoding construction from a plain value sequence
(encoding.py lines 29-31 via lines 61-70): `_value` is the coerced array
and `ivalue` is `list(enumerate(value))`. -/
def mkBinary (value : List Int) : Encoding :=
  { value := value, ivalue := value.enum }

/-- EvolvingHotspotEncoding data model (encoding.py lines 73-87): an
Encoding plus the boolean `crossover_template`. -/
structure EvolvingHotspotEncoding where
  value : List Int
  ivalue : List (Nat × Int)
  crossover_template : List Bool
deriving DecidableEq, Repr

/-- EvolvingHotspotEncoding construction (encoding.py lines 82-87):
`super().__init__(value)` builds `ivalue` by enumeration, and when no
template is supplied the template is `[False] * len(value)`. -/
def mkEvolvingHotspot (value : List Int) (crossover_template : Option (List Bool)) :
    EvolvingHotspotEncoding :=
  { value := value
    ivalue := value.enum
    crossover_template := crossover_template.getD (List.replicate value.length false) }

/-- Elementwise addition of two 1-D numpy arrays with broadcasting: equal
lengths add pointwise, a length-1 operand broadcasts, and any other shape
pair raises (modelled as `none`).  This is what the `+` between ndarray
slices in crossover.py lines 45-46 and 68-69 performs, since
BinaryEncoding coerces `value` to an ndarray (encoding.py lines 68-69). -/
def npAdd (xs ys : List Int) : Option (List Int) :=
  if xs.length = ys.length then some (List.zipWith (fun a b => a + b) xs ys)
  else if xs.length = 1 then some (ys.map (fun y => xs.headD 0 + y))
  else if ys.length = 1 then some (xs.map (fun x => x + ys.headD 0))
  else none

/-- Offspring value arrays of a non-inversion single-point crossover given
the drawn crossover point (crossover.py lines 45-46):
`parents[0].value[:cp] + parents[1].value[cp:]` and symmetrically, where
`+` is numpy elementwise addition of the two slices. -/
def single_point_values (p1 p2 : Encoding) (cp : Nat) : Option (List Int × List Int) := do
  let v1 ← npAdd (p1.value.take cp) (p2.value.drop cp)
  let v2 ← npAdd (p2.value.take cp) (p1.value.drop cp)
  pure (v1, v2)

/-- Non-inversion single-point crossover (crossover.py lines 37-50) with the
probability roll and the drawn crossover point passed in explicitly; on a
successful roll the two offspring are fresh BinaryEncodings built from the
computed value arrays, otherwise the parents pass through. -/
def single_point (p1 p2 : Encoding) (roll_success : Bool) (cp : Nat) :
    Option (Encoding × Encoding) :=
  if roll_success then
    (single_point_values p1 p2 cp).map (fun v => (mkBinary v.1, mkBinary v.2))
  else some (p1, p2)

/-- Support of the crossover point draw of single_point (crossover.py
line 39): `np.random.randint(1, len(parents))` returns an integer in
`[1, len(parents))`, where `parents` is the 2-tuple of parent encodings. -/
def single_point_cp_support (parents : List Encoding) : Finset Nat :=
  Finset.Ico 1 parents.length

/-- Support of the pair of points drawn by two_point (crossover.py line 66):
`np.random.randint(1, len(parents), 2)` draws both integers independently
from `[1, len(parents))`, `parents` again being the 2-tuple. -/
def two_point_draw_support (parents : List Encoding) : Finset (Nat × Nat) :=
  Finset.Ico 1 parents.length ×ˢ Finset.Ico 1 parents.length

/-- The lockstep walk of multi_point (crossover.py lines 90-99) over the
zipped templates and values of both parents: the running crossover state is
toggled by parent 1's template bit, and while the state is active the gene
and template contributions of the two parents are swapped.  Returns
(value1, value2, template1, template2). -/
def multiPointWalk (state : Bool) :
    List (Bool × Bool × Int × Int) → List Int × List Int × List Bool × List Bool
  | [] => ([], [], [], [])
  | (t1, t2, v1, v2) :: rest =>
    let state1 := xor state t1
    let (v1a, v2a, t1a, t2a) := if state1 then (v2, v1, t2, t1) else (v1, v2, t1, t2)
    let (vs1, vs2, ts1, ts2) := multiPointWalk state1 rest
    (v1a :: vs1, v2a :: vs2, t1a :: ts1, t2a :: ts2)

/-- Four-way zip mirroring the `zip` of crossover.py lines 91-92. -/
def zip4 : List Bool → List Bool → List Int → List Int → List (Bool × Bool × Int × Int)
  | t1 :: ts1, t2 :: ts2, v1 :: vs1, v2 :: vs2 => (t1, t2, v1, v2) :: zip4 ts1 ts2 vs1 vs2
  | _, _, _, _ => []

/-- Multi-point crossover on a successful probability roll (crossover.py
lines 85-100).  Line 100 returns
`EvolvingHotspotEncoding(value1, template1), EvolvingHotspotEncoding(value1, template1)`:
both offspring are built from the first value/template pair. -/
def multi_point (p1 p2 : EvolvingHotspotEncoding) :
    EvolvingHotspotEncoding × EvolvingHotspotEncoding :=
  let w := multiPointWalk false
    (zip4 p1.crossover_template p2.crossover_template p1.value p2.value)
  (mkEvolvingHotspot w.1 (some w.2.2.1), mkEvolvingHotspot w.1 (some w.2.2.1))

/-- Modelled from the spec: the intended multi-point crossover in which
offspring 2 is derived from the swapped parent roles, i.e. built from
(value2, template2) of the same walk.  Used only to compare the source
behaviour against the specified behaviour. -/
def multi_point_spec (p1 p2 : EvolvingHotspotEncoding) :
    EvolvingHotspotEncoding × EvolvingHotspotEncoding :=
  let w := multiPointWalk false
    (zip4 p1.crossover_template p2.crossover_template p1.value p2.value)
  (mkEvolvingHotspot w.1 (some w.2.2.1), mkEvolvingHotspot w.2.1 (some w.2.2.2))

/-- Ordering of the two drawn positions (mutation.py line 50):
`a, b = (a, b) if a < b else (b, a)`. -/
def sorted2 (a b : Nat) : Nat × Nat :=
  if a < b then (a, b) else (b, a)

/-- The Python slice `l[b - 1 : a - 1 : -1]` for `0 ≤ a ≤ b < len l`
(mutation.py line 51).  For `a ≥ 1` it is the reversal of `l[a:b]`; for
`a = 0` the stop index `-1` denotes the last element of the list, so the
slice is empty. -/
def pyRevSlice (l : List (Nat × Int)) (a b : Nat) : List (Nat × Int) :=
  if a = 0 then [] else ((l.drop a).take (b - a)).reverse

/-- Python slice assignment `l[a:b] = r` for `0 ≤ a ≤ b ≤ len l`: the
replacement list may have any length, so the list can shrink or grow. -/
def pySliceAssign (l : List (Nat × Int)) (a b : Nat) (r : List (Nat × Int)) :
    List (Nat × Int) :=
  l.take a ++ r ++ l.drop b

/-- Inversion mutation (mutation.py lines 47-52) with the probability roll
and the two position draws passed in explicitly: on a successful roll the
positions are ordered and `ivalue[a:b] = ivalue[b - 1 : a - 1 : -1]` is
executed in place; `value` is not touched. -/
def inversion (off : Encoding) (roll_success : Bool) (d1 d2 : Nat) : Encoding :=
  if roll_success then
    let ab := sorted2 d1 d2
    { off with ivalue := pySliceAssign off.ivalue ab.1 ab.2 (pyRevSlice off.ivalue ab.1 ab.2) }
  else off

/-- The selection sweep of stochastic_universal_sampling (selection.py
lines 46-55): walk the (already shuffled) population once, accumulating
fitness; whenever the running sum exceeds `ptr` the current individual is
selected, with consecutive selections paired.  `ptr` is the single value
drawn at line 45 and is never advanced inside the loop.  Individuals are
identified by Nat labels and carry their fitness. -/
def sus_loop (ptr : ℚ) : List (Nat × ℚ) → ℚ → Option Nat → List (Nat × Nat)
  | [], _, _ => []
  | (e, f) :: rest, cum_sum, prev =>
    let c := cum_sum + f
    if ptr < c then
      match prev with
      | none => sus_loop ptr rest c (some e)
      | some pr => (pr, e) :: sus_loop ptr rest c none
    else sus_loop ptr rest c prev

/-- stochastic_universal_sampling (selection.py lines 30-55) given the
post-shuffle population order and the drawn offset `ptr` (which the source
sets to `np.random.rand() * dist` with `dist = totalFitness / size`). -/
def stochastic_universal_sampling (encs : List (Nat × ℚ)) (ptr : ℚ) : List (Nat × Nat) :=
  sus_loop ptr encs 0 none

/-- Running cumulative fitness sums of a population. -/
def cumSums (fitness : List ℚ) : List ℚ :=
  (List.range fitness.length).map (fun i => (fitness.take (i + 1)).sum)

/-- Modelled from the spec: the selection rule the claim states for SUS.
Pointer `k` (for `k = 0, ..., size - 1`) sits at `ptr + k * dist` and hits
the first individual whose cumulative fitness strictly exceeds it; the
result is the list of hit individuals, by position index, in pointer
order. -/
def sus_spec_hits (fitness : List ℚ) (ptr dist : ℚ) (size : Nat) : List Nat :=
  (List.range size).map
    (fun k => (cumSums fitness).findIdx (fun c => decide (ptr + (k : ℚ) * dist < c)))

/-- Pair up consecutive elements of a list, dropping a trailing odd one. -/
def pairUp : List Nat → List (Nat × Nat)
  | a :: b :: rest => (a, b) :: pairUp rest
  | _ => []

/-- Outcome of validating the `p` argument of `np.random.choice`. -/
inductive NpChoiceError where
  | probsNotNonneg
  | probsNotSumOne
deriving DecidableEq, Repr

/-- Validation numpy performs on the `p` keyword of `np.random.choice`:
every probability must be non-negative and the probabilities must sum to
one; otherwise the call raises ValueError before sampling anything. -/
def np_choice_validate_p (p : List ℚ) : Option NpChoiceError :=
  if p.all (fun x => decide (0 ≤ x)) then
    if p.sum = 1 then none else some NpChoiceError.probsNotSumOne
  else some NpChoiceError.probsNotNonneg

/-- roulette_wheel (selection.py lines 13-27): the size defaults to the
population size, and each of the `size // 2` draws calls
`np.random.choice(encodings, size=2, p=fitness_arr)` with the raw fitness
vector as `p`.  The model reports whether the first draw raises; when no
draw happens (`size // 2 = 0`) or validation passes, the generator does
not raise. -/
def roulette_wheel (fitness : List ℚ) (size : Option Nat) : Except NpChoiceError Unit :=
  let sz := size.getD fitness.length
  if sz / 2 = 0 then Except.ok ()
  else
    match np_choice_validate_p fitness with
    | some e => Except.error e
    | none => Except.ok ()

/-- A numpy array together with the field names of its dtype; an array
built from a list of arbitrary Python objects has dtype `object`, which
exposes no fields. -/
structure NpObjectArray (α : Type) where
  data : List α
  fields : List String

/-- `np.array` over a list of Encoding instances (selection.py line 145)
yields an object-dtype array with no fields. -/
def np_array_of_encodings (l : List Encoding) : NpObjectArray Encoding :=
  { data := l, fields := [] }

/-- The field check of `np.sort(arr, order=field)`: sorting by a field
demands a structured dtype exposing that field and raises ValueError
otherwise.  Only the check is modelled, because every call in this code
base passes an object array and therefore raises. -/
def np_sort_order_check (a : NpObjectArray Encoding) (field : String) : Except String Unit :=
  if a.fields.contains field then Except.ok ()
  else Except.error "Cannot specify order when the array has no fields"

/-- linear_rank_selection (selection.py lines 126-152) up to its first
effect: line 145 wraps the population in an object array and line 146 runs
`np.sort(encodings, order=fitness_field)`, which raises on an object array.
The remainder (rank weights, the `encoding.fitness = weight` assignments
and the SUS delegation, lines 147-152) is unreachable; the assignment at
line 151 would itself raise AttributeError, `fitness` being a read-only
property of Encoding (encoding.py lines 45-48). -/
def linear_rank_selection (encodings : List Encoding) (max_expected_offspring : ℚ) :
    Except String Unit :=
  let _ := max_expected_offspring
  np_sort_order_check (np_array_of_encodings encodings) "fitness"

/-- Line 17 of genetic_algorithm.py: `use_inversion = pi is None`.  The
flag gates the inversion mutation calls at lines 25-27 (and is also passed
to crossover and bit mutation), so inversion mutation is applied to the
offspring exactly when this flag is true. -/
def simple_ga_use_inversion (pi : Option ℚ) : Bool :=
  pi.isNone

/-- C1: the conservation law fails on the code.  On BinaryEncoding
`[0, 1, 1, 0]` the inversion mutation with a successful roll and position
draws `a = 0`, `b = 2` executes `ivalue[0:2] = ivalue[1:-1:-1]`, whose
right-hand side is the empty slice; the first two `(index, gene)` pairs are
deleted, so afterwards `len(value) = 4` while `len(ivalue) = 2` and the
pair multiset is not conserved, contradicting the claimed invariant. -/
theorem C1_inversion_breaks_conservation :
    (mkBinary [0, 1, 1, 0]).value.length = (mkBinary [0, 1, 1, 0]).ivalue.length ∧
    (inversion (mkBinary [0, 1, 1, 0]) true 0 2).value.length = 4 ∧
    (inversion (mkBinary [0, 1, 1, 0]) true 0 2).ivalue.length = 2 ∧
    (inversion (mkBinary [0, 1, 1, 0]) true 0 2).ivalue = [(2, 1), (3, 0)] := by
  decide

/-- C2: on parents `[1, 1, 1, 1]` and `[0, 0, 0, 0]` with a successful roll
and the crossover point fixed at 2, single_point does not splice: the value
slices are numpy arrays, so `+` adds them elementwise, and both offspring
come out as `[1, 1]` (length 2), not `[1, 1, 0, 0]` and `[0, 0, 1, 1]`.
Moreover the point 2 is outside the support of the draw at line 39, which
is `[1, len(parents)) = [1, 2)`. -/
theorem C2_single_point_adds_instead_of_splicing :
    single_point (mkBinary [1, 1, 1, 1]) (mkBinary [0, 0, 0, 0]) true 2 =
      some (mkBinary [1, 1], mkBinary [1, 1]) ∧
    (mkBinary [1, 1]).value ≠ ([1, 1, 0, 0] : List Int) ∧
    2 ∉ single_point_cp_support [mkBinary [1, 1, 1, 1], mkBinary [0, 0, 0, 0]] := by
  decide

/-- C3: multi_point returns two offspring built from the same
value/template pair.  With parent 1 = (value `[0, 0]`, template
`[true, false]`) and parent 2 = (value `[1, 1]`, template
`[false, false]`), the walk gives value1 `[1, 1]` / template1
`[false, false]` and value2 `[0, 0]` / template2 `[true, false]`, but
line 100 returns the first pair twice; the claimed swapped-role second
offspring (as in multi_point_spec) differs from what the code returns. -/
theorem C3_multi_point_duplicates_offspring1 :
    multi_point (mkEvolvingHotspot [0, 0] (some [true, false]))
        (mkEvolvingHotspot [1, 1] (some [false, false])) =
      (mkEvolvingHotspot [1, 1] (some [false, false]),
        mkEvolvingHotspot [1, 1] (some [false, false])) ∧
    (multi_point_spec (mkEvolvingHotspot [0, 0] (some [true, false]))
        (mkEvolvingHotspot [1, 1] (some [false, false]))).2 =
      mkEvolvingHotspot [0, 0] (some [true, false]) ∧
    (multi_point (mkEvolvingHotspot [0, 0] (some [true, false]))
        (mkEvolvingHotspot [1, 1] (some [false, false]))).2 ≠
      (multi_point_spec (mkEvolvingHotspot [0, 0] (some [true, false]))
        (mkEvolvingHotspot [1, 1] (some [false, false]))).2 := by
  decide

/-- C4: SUS does not place evenly spaced pointers: `ptr` is never advanced
inside the selection loop, and each individual is visited once.  On the
shuffled population (individual 0 with fitness 10, individual 1 with
fitness 1), size 2, `dist = 11 / 2` and offset `ptr = 1`, the code yields
the pair (0, 1), while the claimed pointer rule puts pointers at 1 and
13 / 2, both inside the cumulative interval of individual 0, yielding the
pair (0, 0). -/
theorem C4_sus_never_advances_pointer :
    stochastic_universal_sampling [(0, 10), (1, 1)] 1 = [(0, 1)] ∧
    sus_spec_hits [10, 1] 1 (11 / 2) 2 = [0, 0] ∧
    pairUp (sus_spec_hits [10, 1] 1 (11 / 2) 2) = [(0, 0)] ∧
    stochastic_universal_sampling [(0, 10), (1, 1)] 1 ≠
      pairUp (sus_spec_hits [10, 1] 1 (11 / 2) 2) := by
  refine ⟨?_, ?_, ?_, ?_⟩ <;>
    norm_num [stochastic_universal_sampling, sus_loop, sus_spec_hits, cumSums,
      List.range_succ, List.findIdx, List.findIdx.go, pairUp]

/-- C5: roulette_wheel passes the raw fitness vector as the `p` argument of
`np.random.choice`, which demands probabilities summing to one.  On the
fitness vector `[1, 1]` — non-negative and not all zero, so the claim says
pairs are drawn with probability 1/2 each — the very first draw raises
instead of yielding a pair. -/
theorem C5_roulette_raises_on_unnormalized_fitness :
    roulette_wheel [1, 1] none = Except.error NpChoiceError.probsNotSumOne ∧
    np_choice_validate_p [1, 1] = some NpChoiceError.probsNotSumOne ∧
    List.all [(1 : ℚ), 1] (fun x => decide (0 ≤ x)) = true ∧
    List.sum [(1 : ℚ), 1] ≠ 0 := by
  refine ⟨?_, ?_, ?_, ?_⟩ <;> norm_num [roulette_wheel, np_choice_validate_p]

/-- C6: linear_rank_selection never completes.  Line 146 calls
`np.sort(encodings, order=fitness_field)` on the object array built at
line 145, which raises ValueError because an object dtype has no fields;
the sorting, rank weighting, fitness overwriting and SUS delegation are
never reached, for every population and every max_expected_offspring. -/
theorem C6_linear_rank_selection_always_raises (encodings : List Encoding) (m : ℚ) :
    linear_rank_selection encodings m =
      Except.error "Cannot specify order when the array has no fields" :=
  rfl

/-- C7: inversion is not an involution when `a = 0`.  On an encoding of
length 4 with draws `a = 0`, `b = 2` and both rolls succeeding, the slice
`ivalue[1:-1:-1]` is empty, so each application deletes entries instead of
reversing: after two applications `ivalue` is empty rather than restored
to its original order. -/
theorem C7_inversion_not_involution_at_zero :
    (inversion (inversion (mkBinary [0, 1, 1, 0]) true 0 2) true 0 2).ivalue = [] ∧
    (mkBinary [0, 1, 1, 0]).ivalue = [(0, 0), (1, 1), (2, 1), (3, 0)] ∧
    (inversion (inversion (mkBinary [0, 1, 1, 0]) true 0 2) true 0 2).ivalue ≠
      (mkBinary [0, 1, 1, 0]).ivalue := by
  decide

/-- C8: genetic_algorithm.py line 17 reads `use_inversion = pi is None`, so
the inversion machinery is enabled exactly when `pi` is NOT supplied — the
opposite of the claim and of the docstring: with `pi` given (here 1/2) the
flag is false and inversion mutation is never applied, and with `pi`
missing the flag is true. -/
theorem C8_use_inversion_flag_is_inverted :
    simple_ga_use_inversion (some (1 / 2)) = false ∧
    simple_ga_use_inversion none = true :=
  ⟨rfl, rfl⟩

/-- C9: both point draws use the number of parents, not the gene length.
For parents of gene length 4, `np.random.randint(1, len(parents))` has
support `[1, 2) = {1}`, not the claimed `[1, 4)`; and the two_point draw
support is the single pair (1, 1), whose components are not distinct. -/
theorem C9_point_draws_use_number_of_parents :
    single_point_cp_support [mkBinary [1, 1, 1, 1], mkBinary [0, 0, 0, 0]] = {1} ∧
    (mkBinary [1, 1, 1, 1]).value.length = 4 ∧
    single_point_cp_support [mkBinary [1, 1, 1, 1], mkBinary [0, 0, 0, 0]] ≠
      Finset.Ico 1 4 ∧
    two_point_draw_support [mkBinary [1, 1, 1, 1], mkBinary [0, 0, 0, 0]] = {(1, 1)} ∧
    ¬ (∀ q ∈ two_point_draw_support [mkBinary [1, 1, 1, 1], mkBinary [0, 0, 0, 0]],
        q.1 ≠ q.2) := by
  decide

/-- C10: constructing an EvolvingHotspotEncoding without a template sets
the template to `[False] * len(value)`: all false, of the same length as
the value sequence (not length + 1). -/
theorem C10_default_template_is_all_false_of_value_length (v : List Int) :
    (mkEvolvingHotspot v none).crossover_template = List.replicate v.length false ∧
    (mkEvolvingHotspot v none).crossover_template.length = v.length := by
  refine ⟨rfl, ?_⟩
  simp [mkEvolvingHotspot]
